import Mathlib

/-!
Verification of the Clinibot custom-LLM WebSocket server (Retell protocol
bridge).  The definitions below are a shallow embedding of the TypeScript
source: the wire data model comes from `src/types.ts`, the per-call message
handler from `src/server.ts` (route `/llm-websocket/:call_id`), and the
generation orchestrator from `LlmOpenAiClient` in `src/llm-openai-client.ts`
(primary variant).  The multi-user variant of the client (per-agent OpenAI
credentials) is embedded separately with a `V2` suffix.  External effects are
abstracted as explicit parameters: the OpenAI streaming call becomes the list
of delivered chunks plus a success flag, the WebSocket's `readyState` checks
become a countdown of checks that still observe the socket open, and the
Supabase RAG calls become an environment of `Except` outcomes.
-/

namespace Clinibot

/-- Interaction kinds of an inbound Retell frame (`RetellRequest.interaction_type`
in `src/types.ts`). -/
inductive InteractionType where
  | call_details
  | ping_pong
  | update_only
  | response_required
  | reminder_required
deriving Repr, DecidableEq

/-- Speaker role of a transcript utterance (`src/types.ts`). -/
inductive Role where
  | agent
  | user
deriving Repr, DecidableEq

/-- One transcript utterance (`Utterance` in `src/types.ts`). -/
structure Utterance where
  role : Role
  content : String
deriving Repr, DecidableEq

/-- Turn-taking hint carried by an inbound frame (`src/types.ts`). -/
inductive Turntaking where
  | agent_turn
  | user_turn
deriving Repr, DecidableEq

/-- Inbound Retell frame (`RetellRequest` in `src/types.ts`).  Optional JSON
fields are `Option`; `response_id := none` models the field being absent
(`undefined` at runtime, reachable because the TypeScript code reads it with
the non-null assertion `request.response_id!`, which is erased at runtime). -/
structure RetellRequest where
  response_id : Option Nat := none
  interaction_type : InteractionType
  transcript : Option (List Utterance) := none
  timestamp : Option Nat := none
  turntaking : Option Turntaking := none
deriving Repr, DecidableEq

/-- Outbound frame (`RetellEvent` in `src/types.ts`): a streaming response
frame, a ping-pong echo, or the connection-open config frame.  A `response`
frame's identifier is `Option Nat` because `JSON.stringify` of
`request.response_id!` can serialize an absent id. -/
inductive OutEvent where
  | response (response_id : Option Nat) (content : String)
      (content_complete : Bool) (end_call : Bool)
  | pingPong (timestamp : Option Nat)
  | config (auto_reconnect : Bool) (call_details : Bool)
deriving Repr, DecidableEq

/-- JS `String.prototype.includes`: substring containment, used by the hangup
phrase scan in `DraftResponse`. -/
def strIncludes (s pat : String) : Bool :=
  decide (pat.data <:+: s.data)

/-- Hangup phrase parsing done by `LlmOpenAiClient.initialize`
(`src/llm-openai-client.ts` line 73):
`data.hangup_phrases ? data.hangup_phrases.split(",").map(s =>
s.trim().toLowerCase()) : []` — the truthiness guard means an empty
configuration string yields no phrases at all (not the one-empty-entry list
that `split` alone would give). -/
def parseHangupPhrases (raw : String) : List String :=
  if raw = "" then []
  else (raw.splitOn ",").map fun s => s.trim.toLower

/-- Agent configuration held by the primary `LlmOpenAiClient` after
`initialize` (fields of the class relevant to frame emission; the numeric
sampling parameters `temperature`/`maxTokens` and the operator-only
`webhookUrl` never influence which frames are emitted and are omitted). -/
structure ClientConfig where
  systemPrompt : String := ""
  greeting : String := ""
  model : String := "gpt-4o-mini"
  reminderText : String := ""
  knowledgeBase : String := ""
  hangupPhrases : List String := []
  extractionFields : String := ""
  language : String := "es"
deriving Repr, DecidableEq

/-- Environment of the two external calls made by `getRelevantContext`:
the OpenAI embeddings call and the Supabase `match_documents` RPC.
`embed = .error e` models the embeddings promise rejecting; for the RPC,
`.error e` models the promise rejecting, `.ok none` models the resolved
`\x7bdata, error\x7d` having a truthy `error` or null `data`, and
`.ok (some docs)` models rows whose `content` fields are `docs`. -/
structure RagEnv where
  embed : Except String (List Int)
  rpc : Except String (Option (List String))
deriving Repr

/-- Body of the `try` block of `LlmOpenAiClient.getRelevantContext`
(`src/llm-openai-client.ts` lines 89-107): embedding call, then the RPC;
a rejection surfaces as `.error`, the handled `error || !data` case returns
the empty string, and success joins the row contents with blank lines. -/
def ragAttempt (env : RagEnv) : Except String String :=
  match env.embed with
  | .error e => .error e
  | .ok _ =>
    match env.rpc with
    | .error e => .error e
    | .ok none => .ok ""
    | .ok (some docs) => .ok (String.intercalate "\n\n" docs)

/-- `LlmOpenAiClient.getRelevantContext` (`src/llm-openai-client.ts` lines
87-112) as observed by its caller: the guard `if (!this.knowledgeBase)
return ""` runs before the `try`, and the `catch` turns any rejection into
the empty string, so the `.error` branch of the result type is never
produced (proved in `C9_context_retrieval`). -/
def getRelevantContext (kb : String) (env : RagEnv) : Except String String :=
  if kb = "" then .ok ""
  else
    match ragAttempt env with
    | .ok s => .ok s
    | .error _ => .ok ""

/-- Number of external calls (embeddings request, then RPC) issued by
`getRelevantContext` on the given inputs: none when the knowledge-base id is
absent, one when the embeddings call rejects, two otherwise. -/
def ragExternalCalls (kb : String) (env : RagEnv) : Nat :=
  if kb = "" then 0
  else match env.embed with
    | .error _ => 1
    | .ok _ => 2

/-- One chunk of the OpenAI streaming response: `chunk.choices[0]?.delta?.content`
is `delta`, with `none` for an absent delta and `some ""` for an empty one
(both are skipped by the JS truthiness test `if (delta)`). -/
structure Chunk where
  delta : Option String
deriving Repr, DecidableEq

/-- Outcome of one `openaiClient.chat.completions.create(..., stream: true)`
call: the chunks delivered before the stream either completes normally
(`ok = true`) or rejects (`ok = false`; an initial `create` failure is
`chunks = []`).  `errMsg` is the rejection's `err.message`; the primary
client never puts it in a frame (see `C3_amended`), the V2 variant does. -/
structure Provider where
  chunks : List Chunk
  ok : Bool
  errMsg : String := ""
deriving Repr, DecidableEq

/-- Result of the streaming `for await` loop of `DraftResponse`: frames sent,
the accumulated `fullAgentResponse`, the number of `readyState` checks that
would still see the socket open, and whether the loop returned early because
a check saw the socket closed. -/
structure LoopOut where
  events : List OutEvent
  acc : String
  remaining : Nat
  aborted : Bool
deriving Repr, DecidableEq

/-- Streaming loop of `DraftResponse` (`src/llm-openai-client.ts` lines
196-211): per delivered chunk, first the `ws.readyState !== WebSocket.OPEN`
check (the countdown `k` is the number of checks that still observe the
socket open; `k = 0` means the socket has closed, so the loop returns), then
the truthiness test on the delta: a non-empty delta is accumulated and sent
as a `content_complete = false` frame, an absent or empty delta is skipped. -/
def streamLoop (rid : Option Nat) : List Chunk → Nat → LoopOut
  | [], k => ⟨[], "", k, false⟩
  | _ :: _, 0 => ⟨[], "", 0, true⟩
  | ⟨none⟩ :: rest, Nat.succ k => streamLoop rid rest k
  | ⟨some s⟩ :: rest, Nat.succ k =>
    if s = "" then streamLoop rid rest k
    else
      let out := streamLoop rid rest k
      ⟨OutEvent.response rid s false false :: out.events, s ++ out.acc,
        out.remaining, out.aborted⟩

/-- Concatenation of the truthy deltas of a chunk list: the value of
`fullAgentResponse` after the full stream has been consumed. -/
def accText : List Chunk → String
  | [] => ""
  | ⟨none⟩ :: rest => accText rest
  | ⟨some s⟩ :: rest => if s = "" then accText rest else s ++ accText rest

/-- Fixed fallback content sent by the `catch` block of the primary
`DraftResponse` (`src/llm-openai-client.ts` line 235). -/
def apologyText : String :=
  "Disculpa, tuve un problema procesando tu solicitud. ¿Podrías repetirlo?"

/-- Early-return gate at the top of the primary `DraftResponse`
(`src/llm-openai-client.ts` lines 140-146): an `update_only` frame is dropped
unless its turn-taking hint is `agent_turn`; every other interaction kind
falls through to generation. -/
def passesGate (req : RetellRequest) : Bool :=
  !(req.interaction_type == InteractionType.update_only
      && !(req.turntaking == some Turntaking.agent_turn))

/-- Last user-role utterance of the request transcript:
`request.transcript?.filter(u => u.role === "user").pop()`
(`src/llm-openai-client.ts` line 150). -/
def lastUserMessage (req : RetellRequest) : Option Utterance :=
  ((req.transcript.getD []).filter fun u => u.role == Role.user).getLast?

/-- Context string computed by `DraftResponse` step 1 (`src/llm-openai-client.ts`
lines 148-153): the RAG adapter is invoked only when a last user utterance
exists and the knowledge-base id is truthy.  `getRelevantContext` never
returns `.error` (see `C9_context_retrieval`); the `.error` arm is the
unreachable rejection case. -/
def draftContext (c : ClientConfig) (req : RetellRequest) (env : RagEnv) : String :=
  match lastUserMessage req with
  | none => ""
  | some _ =>
    if c.knowledgeBase = "" then ""
    else
      match getRelevantContext c.knowledgeBase env with
      | .ok s => s
      | .error _ => ""

/-- System prompt assembled by `DraftResponse` step 2 (`src/llm-openai-client.ts`
lines 156-163): agent prompt, optional context block, optional extraction
mission, and the language instruction. -/
def fullSystemPrompt (c : ClientConfig) (context : String) : String :=
  let p := c.systemPrompt
  let p := if context = "" then p
    else p ++ "\n\n## Relevant Context (Use this to answer questions):\n" ++ context
  let p := if c.extractionFields = "" then p
    else p ++ "\n\n## Mission: You MUST extract these fields during the conversation: "
      ++ c.extractionFields
  p ++ "\n\n## Language Instruction: Always communicate in " ++ c.language ++ "."

/-- One role-tagged message of the OpenAI request. -/
structure ChatMessage where
  role : String
  content : String
deriving Repr, DecidableEq

/-- Message list built by the primary `DraftResponse` (`src/llm-openai-client.ts`
lines 165-183): system prompt, one message per transcript utterance
(`agent ↦ assistant`, `user ↦ user`), and for `reminder_required` a trailing
user message holding the configured reminder text or its default. -/
def buildMessages (c : ClientConfig) (req : RetellRequest) (context : String) :
    List ChatMessage :=
  [⟨"system", fullSystemPrompt c context⟩]
    ++ ((req.transcript.getD []).map fun u =>
        ⟨if u.role == Role.agent then "assistant" else "user", u.content⟩)
    ++ (if req.interaction_type == InteractionType.reminder_required then
          [⟨"user", if c.reminderText = "" then
              "(The user has been silent. Send a friendly follow-up.)"
            else c.reminderText⟩]
        else [])

/-- Prompt-assembly half of one `DraftResponse` invocation (steps 1-3):
context retrieval followed by message building. -/
def draftMessages (c : ClientConfig) (req : RetellRequest) (env : RagEnv) :
    List ChatMessage :=
  buildMessages c req (draftContext c req env)

/-- Frames emitted by one invocation of the primary
`LlmOpenAiClient.DraftResponse` (`src/llm-openai-client.ts` lines 134-242).
After the `update_only` gate, the streaming loop runs (`streamLoop`); if it
returned early because the socket closed nothing further is sent; on normal
exhaustion of a successful stream the closing frame (empty content,
`content_complete = true`, `end_call` from the hangup-phrase scan
`hangupPhrases.some(p => fullAgentResponse.toLowerCase().includes(p))`) is
sent provided the final `readyState` check still sees the socket open; on a
stream rejection the `catch` block sends the fixed apology frame under the
same check.  The prompt half lives in `draftMessages`; the provider's answer
to it is abstracted as `prov`. -/
def DraftResponse (c : ClientConfig) (req : RetellRequest) (prov : Provider)
    (k : Nat) : List OutEvent :=
  if passesGate req then
    if (streamLoop req.response_id prov.chunks k).aborted then
      (streamLoop req.response_id prov.chunks k).events
    else if prov.ok then
      if (streamLoop req.response_id prov.chunks k).remaining ≠ 0 then
        (streamLoop req.response_id prov.chunks k).events
          ++ [OutEvent.response req.response_id "" true
              (c.hangupPhrases.any fun p =>
                strIncludes (streamLoop req.response_id prov.chunks k).acc.toLower p)]
      else (streamLoop req.response_id prov.chunks k).events
    else
      if (streamLoop req.response_id prov.chunks k).remaining ≠ 0 then
        (streamLoop req.response_id prov.chunks k).events
          ++ [OutEvent.response req.response_id apologyText true false]
      else (streamLoop req.response_id prov.chunks k).events
  else []

/-- Result of one `ws.on("message")` invocation: frames written plus the close
code passed to `ws.close`, if any. -/
structure HandlerResult where
  frames : List OutEvent
  closeCode : Option Nat
deriving Repr, DecidableEq

/-- Message handler of the primary WebSocket route
(`src/server.ts` lines 85-97): a binary frame closes the socket with code
1002 and nothing else happens; otherwise the payload is JSON-parsed
(`parsed = none` models a parse failure, which is caught and only logged)
and every successfully parsed frame — whatever its interaction kind — is
passed to `DraftResponse`. -/
def handleMessage (c : ClientConfig) (prov : Provider) (k : Nat)
    (isBinary : Bool) (parsed : Option RetellRequest) : HandlerResult :=
  if isBinary then ⟨[], some 1002⟩
  else
    match parsed with
    | none => ⟨[], none⟩
    | some req => ⟨DraftResponse c req prov k, none⟩

/-- Close code meaning "unsupported data" in RFC 6455 §7.4.1 (code 1003);
1002 is the "protocol error" code. -/
def unsupportedDataCode : Nat := 1003

/-- Frame check: a response frame for `rid` with `content_complete = true`. -/
def isCompleteFor (rid : Option Nat) : OutEvent → Bool
  | .response r _ cc _ => r == rid && cc
  | _ => false

/-- Frame check: a response frame for `rid` with `content_complete = false`. -/
def isIncompleteFor (rid : Option Nat) : OutEvent → Bool
  | .response r _ cc _ => r == rid && !cc
  | _ => false

/-- Frame check: any response frame carrying the identifier `rid`. -/
def isForRid (rid : Option Nat) : OutEvent → Bool
  | .response r _ _ _ => r == rid
  | _ => false

/-- Frame check: a ping-pong echo frame. -/
def isPingPongFrame : OutEvent → Bool
  | .pingPong _ => true
  | _ => false

/-- Stream shape asserted by the spec for one response identifier: zero or
more `content_complete = false` frames for `rid` followed by exactly one
`content_complete = true` frame for `rid`, with nothing after it. -/
def wellFormedStream (rid : Option Nat) : List OutEvent → Bool
  | [] => false
  | [f] => isCompleteFor rid f
  | f :: g :: rest => isIncompleteFor rid f && wellFormedStream rid (g :: rest)

/-- Event-loop interleaving of the frame sequences of concurrently running
`DraftResponse` invocations on one session.  The canonical `server.ts`
message handler keeps no per-session generation state and cancels nothing, so
each inbound frame spawns an independent `DraftResponse` whose `await` points
let the frame sequences of distinct invocations interleave arbitrarily; the
schedule picks, step by step, which invocation writes its next frame. -/
def interleave (streams : List (List OutEvent)) : List Nat → List OutEvent
  | [] => []
  | i :: sched =>
    match streams.get? i with
    | some (f :: fs) => f :: interleave (streams.set i fs) sched
    | some [] => interleave streams sched
    | none => interleave streams sched

/-- Message thrown by the V2 (multi-user) `DraftResponse` when the agent has
no OpenAI credential (`src/unnamed/part_002` line 165). -/
def noKeyMsg : String :=
  "No OpenAI API Key configured for this agent. Please add it in the dashboard."

/-- Closing content of the V2 `catch` block (`src/unnamed/part_002` line 216):
the raw `err.message` is interpolated into the outbound frame. -/
def v2ErrorContent (msg : String) : String :=
  "Lo siento, tengo un problema técnico momentáneo. (Error: " ++ msg ++ ")"

/-- Credential resolution of the V2 `initialize` (`src/unnamed/part_002` lines
64-74): strictly the agent row's `openai_api_key` (empty string is falsy);
the process-environment key (second argument) is never consulted, so there is
no silent fallback. -/
def initializeOpenAiKeyV2 (agentKey : Option String) (envKey : Option String) :
    Option String :=
  match agentKey, envKey with
  | some kk, _ => if kk = "" then none else some kk
  | none, _ => none

/-- Frames emitted by the V2 (multi-user) `LlmOpenAiClient.DraftResponse`
(`src/unnamed/part_002` lines 104-222): ping-pong frames are echoed,
`update_only` and `call_details` return silently, a missing `response_id`
returns silently; then, inside `try`, a missing credential throws before the
provider is called, streamed truthy deltas are forwarded without any
`readyState` check, the closing frame is sent unconditionally, and the
`catch` block (guarded by one `readyState` check, `wsOpenAtCatch`) sends a
frame embedding `err.message || 'Unknown'`. -/
def DraftResponseV2 (key : Option String) (req : RetellRequest)
    (prov : Provider) (wsOpenAtCatch : Bool) : List OutEvent :=
  match req.interaction_type with
  | .ping_pong => [OutEvent.pingPong req.timestamp]
  | .update_only => []
  | .call_details => []
  | _ =>
    match req.response_id with
    | none => []
    | some rid =>
      match key with
      | none =>
        if wsOpenAtCatch then
          [OutEvent.response (some rid) (v2ErrorContent noKeyMsg) true false]
        else []
      | some _ =>
        let evs := prov.chunks.filterMap fun ch =>
          ch.delta.bind fun s =>
            if s = "" then none
            else some (OutEvent.response (some rid) s false false)
        if prov.ok then
          evs ++ [OutEvent.response (some rid) "" true false]
        else
          evs ++ (if wsOpenAtCatch then
            [OutEvent.response (some rid)
              (v2ErrorContent (if prov.errMsg = "" then "Unknown" else prov.errMsg))
              true false]
          else [])

/-- Every frame emitted inside the streaming loop is a
`content_complete = false` response frame for the request's identifier with a
non-empty content fragment. -/
theorem streamLoop_events_shape (rid : Option Nat) (cs : List Chunk) :
    ∀ (k : Nat), ∀ f ∈ (streamLoop rid cs k).events,
      ∃ s, f = OutEvent.response rid s false false ∧ s ≠ "" := by
  induction cs with
  | nil => intro k f hf; simp [streamLoop] at hf
  | cons ch rest ih =>
    intro k f hf
    obtain ⟨d⟩ := ch
    match k with
    | 0 => simp [streamLoop] at hf
    | Nat.succ k =>
      cases d with
      | none =>
        simp only [streamLoop] at hf
        exact ih k f hf
      | some s =>
        simp only [streamLoop] at hf
        by_cases hs : s = ""
        · rw [if_pos hs] at hf
          exact ih k f hf
        · rw [if_neg hs] at hf
          simp only [List.mem_cons] at hf
          rcases hf with rfl | hf
          · exact ⟨s, rfl, hs⟩
          · exact ih k f hf

/-- When the socket stays open strictly longer than the number of delivered
chunks, the streaming loop is never aborted, consumes one openness check per
chunk, and accumulates exactly the concatenation of the truthy deltas. -/
theorem streamLoop_open (rid : Option Nat) (cs : List Chunk) :
    ∀ (k : Nat), cs.length < k →
      (streamLoop rid cs k).aborted = false ∧
      (streamLoop rid cs k).remaining = k - cs.length ∧
      (streamLoop rid cs k).acc = accText cs := by
  induction cs with
  | nil => intro k _; simp [streamLoop, accText]
  | cons ch rest ih =>
    intro k hk
    obtain ⟨d⟩ := ch
    match k with
    | 0 => omega
    | Nat.succ k =>
      have hk' : rest.length < k := by
        simpa [Nat.succ_lt_succ_iff] using hk
      obtain ⟨h1, h2, h3⟩ := ih k hk'
      cases d with
      | none =>
        simp only [streamLoop, accText]
        refine ⟨h1, ?_, h3⟩
        rw [h2]; simp
      | some s =>
        simp only [streamLoop, accText]
        by_cases hs : s = ""
        · rw [if_pos hs, if_pos hs]
          refine ⟨h1, ?_, h3⟩
          rw [h2]; simp
        · rw [if_neg hs, if_neg hs]
          refine ⟨h1, ?_, by rw [h3]⟩
          rw [h2]; simp

/-- Appending a single complete frame to a list of incomplete frames for the
same identifier yields a well-formed stream. -/
theorem wellFormedStream_append (rid : Option Nat) (x : OutEvent)
    (hx : isCompleteFor rid x = true) :
    ∀ evs : List OutEvent, (∀ f ∈ evs, isIncompleteFor rid f = true) →
      wellFormedStream rid (evs ++ [x]) = true := by
  intro evs
  induction evs with
  | nil => intro _; simpa [wellFormedStream] using hx
  | cons f rest ih =>
    intro h
    have hf : isIncompleteFor rid f = true := h f (by simp)
    have hrest : wellFormedStream rid (rest ++ [x]) = true :=
      ih fun g hg => h g (by simp [hg])
    cases rest with
    | nil => simp [wellFormedStream, hf, hx]
    | cons g rest2 =>
      simpa [wellFormedStream, hf] using hrest

/-- C1 (counterexample): the claim as stated fails when the transport closes
mid-stream.  With two delivered chunks but only one `readyState` check still
observing the socket open, the generation cycle for response identifier 5
emits a single `content_complete = false` frame and then stops: no
`content_complete = true` frame is ever emitted for that identifier, so the
emitted sequence is not zero-or-more incomplete frames followed by exactly
one complete frame. -/
theorem C1_counterexample :
    DraftResponse {}
        { interaction_type := .response_required, response_id := some 5 }
        ⟨[⟨some "Hola"⟩, ⟨some " adios"⟩], true, ""⟩ 1
      = [OutEvent.response (some 5) "Hola" false false]
    ∧ wellFormedStream (some 5)
        (DraftResponse {}
          { interaction_type := .response_required, response_id := some 5 }
          ⟨[⟨some "Hola"⟩, ⟨some " adios"⟩], true, ""⟩ 1) = false :=
  ⟨rfl, rfl⟩

/-- C1 (amended): for every inbound frame that triggers a generation cycle,
provided the transport stays open at every `readyState` check of the cycle
(strictly more open checks than delivered chunks), the response frames
emitted by that cycle are zero or more `content_complete = false` frames for
the triggering response identifier followed by exactly one
`content_complete = true` frame for it, with no frame after it — in both the
successful-exhaustion and the provider-failure case. -/
theorem C1_amended (c : ClientConfig) (req : RetellRequest) (prov : Provider)
    (k : Nat) (hgate : passesGate req = true) (hk : prov.chunks.length < k) :
    wellFormedStream req.response_id (DraftResponse c req prov k) = true := by
  obtain ⟨h1, h2, h3⟩ := streamLoop_open req.response_id prov.chunks k hk
  have hrem : (streamLoop req.response_id prov.chunks k).remaining ≠ 0 := by omega
  have hinc : ∀ f ∈ (streamLoop req.response_id prov.chunks k).events,
      isIncompleteFor req.response_id f = true := by
    intro f hf
    obtain ⟨s, rfl, -⟩ := streamLoop_events_shape req.response_id prov.chunks k f hf
    simp [isIncompleteFor]
  unfold DraftResponse
  rw [if_pos hgate, h1]
  cases hok : prov.ok
  · rw [if_neg (by simp), if_neg (by simp), if_pos hrem]
    exact wellFormedStream_append _ _ (by simp [isCompleteFor]) _ hinc
  · rw [if_neg (by simp), if_pos rfl, if_pos hrem]
    exact wellFormedStream_append _ _ (by simp [isCompleteFor]) _ hinc

/-- C1 (witness for the amended theorem): a concrete two-chunk cycle with the
socket open throughout is well formed. -/
theorem C1_amended_witness :
    wellFormedStream (some 7)
      (DraftResponse {}
        { interaction_type := .response_required, response_id := some 7 }
        ⟨[⟨some "Hola"⟩, ⟨some " adios"⟩], true, ""⟩ 5) = true :=
  C1_amended {} { interaction_type := .response_required, response_id := some 7 }
    ⟨[⟨some "Hola"⟩, ⟨some " adios"⟩], true, ""⟩ 5 (by decide) (by decide)

/-- C2 (code evaluation at the failing input): the canonical message handler
(`src/server.ts` lines 85-97) keeps no in-flight response identifier and no
cancellation handle, so a generation for identifier 5 that is still streaming
when the `response_required` frame for identifier 6 arrives keeps running;
under the event-loop schedule `[0, 1, 0, 0, 1]` the session emits the second
content frame for identifier 5 (and its closing frame) after the first frame
for identifier 6, refuting the claimed supersession. -/
theorem C2_no_supersession_eval :
    interleave
      [DraftResponse {}
          { interaction_type := .response_required, response_id := some 5 }
          ⟨[⟨some "Hola"⟩, ⟨some " adios"⟩], true, ""⟩ 10,
       DraftResponse {}
          { interaction_type := .response_required, response_id := some 6 }
          ⟨[⟨some "Si"⟩], true, ""⟩ 10]
      [0, 1, 0, 0, 1]
      = [OutEvent.response (some 5) "Hola" false false,
         OutEvent.response (some 6) "Si" false false,
         OutEvent.response (some 5) " adios" false false,
         OutEvent.response (some 5) "" true false,
         OutEvent.response (some 6) "" true false]
    ∧ isForRid (some 6) (OutEvent.response (some 6) "Si" false false) = true
    ∧ isForRid (some 5) (OutEvent.response (some 5) " adios" false false) = true :=
  ⟨rfl, rfl, rfl⟩

/-- C3 (counterexample): in the V2 (multi-user) client the `catch` block
interpolates the raw `err.message` into the outbound closing frame
(`src/unnamed/part_002` line 216), so the provider failure detail "boom" is
relayed verbatim inside the emitted content. -/
theorem C3_counterexample :
    DraftResponseV2 (some "sk-test")
        { interaction_type := .response_required, response_id := some 7 }
        ⟨[], false, "boom"⟩ true
      = [OutEvent.response (some 7) (v2ErrorContent "boom") true false]
    ∧ strIncludes (v2ErrorContent "boom") "boom" = true :=
  ⟨rfl, by decide⟩

/-- C3 (amended): in the primary client, for every generation cycle whose
provider call fails while the transport is still open, exactly one closing
frame is emitted after the partial stream: `content_complete = true`,
`end_call = false`, content the fixed generic apology; and the frames are
independent of the raw failure message, so the failure detail can never
appear in any outbound frame of the primary client.  The V2 variant instead
appends the raw error message to its closing frame (see counterexample). -/
theorem C3_amended (c : ClientConfig) (req : RetellRequest) (prov : Provider)
    (k : Nat) (hgate : passesGate req = true) (hfail : prov.ok = false)
    (hk : prov.chunks.length < k) :
    (∃ pre, DraftResponse c req prov k
        = pre ++ [OutEvent.response req.response_id apologyText true false]
      ∧ ∀ f ∈ pre, isIncompleteFor req.response_id f = true)
    ∧ ∀ msg : String,
        DraftResponse c req { prov with errMsg := msg } k
          = DraftResponse c req prov k := by
  obtain ⟨h1, h2, h3⟩ := streamLoop_open req.response_id prov.chunks k hk
  have hrem : (streamLoop req.response_id prov.chunks k).remaining ≠ 0 := by omega
  constructor
  · refine ⟨(streamLoop req.response_id prov.chunks k).events, ?_, ?_⟩
    · unfold DraftResponse
      rw [if_pos hgate, h1, hfail]
      rw [if_neg (by simp), if_neg (by simp), if_pos hrem]
    · intro f hf
      obtain ⟨s, rfl, -⟩ :=
        streamLoop_events_shape req.response_id prov.chunks k f hf
      simp [isIncompleteFor]
  · intro msg
    rfl

/-- C3 (witness for the amended theorem): a concrete failing cycle — one
chunk delivered, then the stream rejects — emits the chunk frame followed by
exactly the apology closing frame. -/
theorem C3_amended_witness :
    ∃ pre, DraftResponse {}
        { interaction_type := .response_required, response_id := some 9 }
        ⟨[⟨some "Hola"⟩], false, "socket hang up"⟩ 3
      = pre ++ [OutEvent.response (some 9) apologyText true false]
      ∧ ∀ f ∈ pre, isIncompleteFor (some 9) f = true :=
  (C3_amended {} { interaction_type := .response_required, response_id := some 9 }
    ⟨[⟨some "Hola"⟩], false, "socket hang up"⟩ 3 (by decide) rfl (by decide)).1

/-- C4 (code evaluation at the failing input): the canonical route passes
every parsed frame to `DraftResponse`, which has no ping-pong branch, so an
inbound `ping_pong` frame with timestamp 123 starts a full generation cycle
(here one delta "Hola"): the handler emits two `response` frames carrying the
absent response identifier and never emits a `ping_pong` echo, contradicting
the claimed echo-with-timestamp-123 behaviour. -/
theorem C4_code_bug_eval :
    handleMessage {} ⟨[⟨some "Hola"⟩], true, ""⟩ 5 false
        (some { interaction_type := .ping_pong, timestamp := some 123 })
      = ⟨[OutEvent.response none "Hola" false false,
          OutEvent.response none "" true false], none⟩
    ∧ (List.all
        [OutEvent.response none "Hola" false false,
         OutEvent.response none "" true false]
        fun f => !isPingPongFrame f) = true :=
  ⟨rfl, rfl⟩

/-- C5: for every generation cycle that exhausts the provider stream
successfully with the transport open throughout, and whose hangup phrase
list was produced by `initialize` from the raw comma-separated configuration
string, the closing frame is the last frame emitted (empty content,
`content_complete = true`) and its `end_call` flag is true exactly when a
hangup phrase is configured at all (non-empty configuration string, matching
the truthiness guard of `initialize`) and some configured entry — trimmed
and lowercased — occurs as a substring of the lowercased accumulated text. -/
theorem C5_hangup (c : ClientConfig) (req : RetellRequest) (prov : Provider)
    (k : Nat) (raw : String)
    (hgate : passesGate req = true) (hok : prov.ok = true)
    (hk : prov.chunks.length < k)
    (hph : c.hangupPhrases = parseHangupPhrases raw) :
    ∃ pre hang,
      DraftResponse c req prov k
        = pre ++ [OutEvent.response req.response_id "" true hang]
      ∧ (hang = true ↔ raw ≠ "" ∧ ∃ entry ∈ raw.splitOn ",",
          strIncludes (accText prov.chunks).toLower (entry.trim.toLower) = true) := by
  obtain ⟨h1, h2, h3⟩ := streamLoop_open req.response_id prov.chunks k hk
  have hrem : (streamLoop req.response_id prov.chunks k).remaining ≠ 0 := by omega
  refine ⟨(streamLoop req.response_id prov.chunks k).events,
    c.hangupPhrases.any (fun p =>
      strIncludes (streamLoop req.response_id prov.chunks k).acc.toLower p),
    ?_, ?_⟩
  · unfold DraftResponse
    rw [if_pos hgate, h1, hok]
    rw [if_neg (by simp), if_pos rfl, if_pos hrem]
  · rw [h3, hph]
    unfold parseHangupPhrases
    by_cases hraw : raw = ""
    · rw [if_pos hraw]
      simp [hraw]
    · rw [if_neg hraw]
      rw [List.any_map, List.any_eq_true]
      constructor
      · rintro ⟨entry, hmem, hp⟩
        exact ⟨hraw, entry, hmem, hp⟩
      · rintro ⟨-, entry, hmem, hp⟩
        exact ⟨entry, hmem, hp⟩

/-- C5 (witness): the spec's own scenario — configuration "adios, goodbye",
fragments "Good" then "bye" — accumulates "Goodbye", matches "goodbye"
case-insensitively, and closes with `end_call = true`. -/
theorem C5_hangup_witness :
    ∃ pre hang,
      DraftResponse
          { hangupPhrases := parseHangupPhrases "adios, goodbye" }
          { interaction_type := .response_required, response_id := some 7 }
          ⟨[⟨some "Good"⟩, ⟨some "bye"⟩], true, ""⟩ 10
        = pre ++ [OutEvent.response (some 7) "" true hang]
      ∧ (hang = true ↔ "adios, goodbye" ≠ ""
          ∧ ∃ entry ∈ "adios, goodbye".splitOn ",",
            strIncludes (accText [⟨some "Good"⟩, ⟨some "bye"⟩]).toLower
              (entry.trim.toLower) = true) :=
  C5_hangup { hangupPhrases := parseHangupPhrases "adios, goodbye" }
    { interaction_type := .response_required, response_id := some 7 }
    ⟨[⟨some "Good"⟩, ⟨some "bye"⟩], true, ""⟩ 10 "adios, goodbye"
    (by decide) rfl (by decide) rfl

/-- C6 (counterexample): a binary frame on the primary route closes the
transport with code 1002, which is the RFC 6455 "protocol error" code, not
the "unsupported data" code 1003 asserted by the claim (no response frame is
emitted, as the claim also says). -/
theorem C6_counterexample :
    (handleMessage {} ⟨[], true, ""⟩ 5 true none).closeCode = some 1002
    ∧ (handleMessage {} ⟨[], true, ""⟩ 5 true none).closeCode
        ≠ some unsupportedDataCode
    ∧ (handleMessage {} ⟨[], true, ""⟩ 5 true none).frames = [] := by
  refine ⟨rfl, ?_, rfl⟩
  decide

/-- C6 (amended): for every binary frame received on the primary WebSocket
route, the transport is closed with close code 1002 (RFC 6455 "protocol
error" class rather than "unsupported data") and no response frame is
emitted for that frame.  (The duplicated-URL fallback route of `server.ts`
performs no binary check at all; its parse failure is merely logged.) -/
theorem C6_amended (c : ClientConfig) (prov : Provider) (k : Nat)
    (parsed : Option RetellRequest) :
    handleMessage c prov k true parsed = ⟨[], some 1002⟩ :=
  rfl

/-- C7: for every inbound `update_only` frame, no outbound frame is emitted
unless the turn-taking hint is `agent_turn`, in which case the frame is
processed exactly as the same frame with `interaction_type =
response_required` would be — both the emitted frames and the assembled
provider messages coincide. -/
theorem C7_update_only (c : ClientConfig) (req : RetellRequest)
    (prov : Provider) (k : Nat) (env : RagEnv)
    (hty : req.interaction_type = .update_only) :
    (req.turntaking ≠ some .agent_turn → DraftResponse c req prov k = [])
    ∧ (req.turntaking = some .agent_turn →
        DraftResponse c req prov k
          = DraftResponse c { req with interaction_type := .response_required }
              prov k
        ∧ draftMessages c req env
          = draftMessages c { req with interaction_type := .response_required }
              env) := by
  constructor
  · intro hturn
    have hg : passesGate req = false := by
      simp [passesGate, hty, hturn]
    unfold DraftResponse
    rw [if_neg (by simp [hg])]
  · intro hturn
    have hg1 : passesGate req = true := by
      simp [passesGate, hty, hturn]
    have hg2 : passesGate { req with interaction_type := .response_required }
        = true := by
      simp [passesGate]
    constructor
    · unfold DraftResponse
      rw [if_pos hg1, if_pos hg2]
    · unfold draftMessages buildMessages draftContext lastUserMessage
      simp [hty]

/-- C7 (witness): with `user_turn` the `update_only` frame produces no frame;
with `agent_turn` it produces the same frames as `response_required`. -/
theorem C7_update_only_witness :
    DraftResponse {}
        { interaction_type := .update_only, response_id := some 3,
          turntaking := some .user_turn }
        ⟨[⟨some "Hola"⟩], true, ""⟩ 5 = []
    ∧ DraftResponse {}
        { interaction_type := .update_only, response_id := some 3,
          turntaking := some .agent_turn }
        ⟨[⟨some "Hola"⟩], true, ""⟩ 5
      = DraftResponse {}
        { interaction_type := .response_required, response_id := some 3,
          turntaking := some .agent_turn }
        ⟨[⟨some "Hola"⟩], true, ""⟩ 5 :=
  ⟨(C7_update_only {}
      { interaction_type := .update_only, response_id := some 3,
        turntaking := some .user_turn }
      ⟨[⟨some "Hola"⟩], true, ""⟩ 5 ⟨.ok [], .ok none⟩ rfl).1 (by decide),
   ((C7_update_only {}
      { interaction_type := .update_only, response_id := some 3,
        turntaking := some .agent_turn }
      ⟨[⟨some "Hola"⟩], true, ""⟩ 5 ⟨.ok [], .ok none⟩ rfl).2 rfl).1⟩

/-- C8: for every session of the multi-user client whose agent configuration
yields no resolvable provider credential (empty or absent `openai_api_key` —
whatever the environment credential is, since `initialize` never consults
it), every generation cycle fails fast: whatever the provider would have
answered, the only frame emitted is the single provider-failure closing frame
(`content_complete = true`, `end_call = false`). -/
theorem C8_no_credential_fails_fast (envKey : Option String)
    (req : RetellRequest) (prov : Provider) (rid : Nat)
    (hty : req.interaction_type = .response_required
      ∨ req.interaction_type = .reminder_required)
    (hr : req.response_id = some rid) :
    DraftResponseV2 (initializeOpenAiKeyV2 none envKey) req prov true
      = [OutEvent.response (some rid) (v2ErrorContent noKeyMsg) true false] := by
  have hkey : initializeOpenAiKeyV2 none envKey = none := rfl
  rw [hkey]
  rcases hty with h | h <;>
    · unfold DraftResponseV2
      rw [h, hr]
      rfl

/-- C8 (witness): a concrete agent without a key, in an environment that does
hold a key, still gets only the failure closing frame. -/
theorem C8_witness :
    DraftResponseV2 (initializeOpenAiKeyV2 none (some "sk-env"))
      { interaction_type := .response_required, response_id := some 4 }
      ⟨[⟨some "Hola"⟩], true, ""⟩ true
      = [OutEvent.response (some 4) (v2ErrorContent noKeyMsg) true false] :=
  C8_no_credential_fails_fast (some "sk-env")
    { interaction_type := .response_required, response_id := some 4 }
    ⟨[⟨some "Hola"⟩], true, ""⟩ 4 (Or.inl rfl) rfl

/-- Failure of the context-retrieval pipeline at some step: the embeddings
call rejects, the RPC rejects, or the RPC resolves with a truthy `error`
field or null `data`. -/
def ragFails (env : RagEnv) : Prop :=
  (∃ e, env.embed = .error e) ∨ (∃ e, env.rpc = .error e) ∨ env.rpc = .ok none

/-- C9: the context-retrieval adapter returns empty text immediately with no
external call when the knowledge-source identifier is absent; returns empty
text on a failure at any step; and never propagates an error to its caller
(its result is always `.ok`). -/
theorem C9_context_retrieval (kb : String) (env : RagEnv) :
    (kb = "" → getRelevantContext kb env = .ok ""
      ∧ ragExternalCalls kb env = 0)
    ∧ (ragFails env → getRelevantContext kb env = .ok "")
    ∧ ∃ s, getRelevantContext kb env = .ok s := by
  refine ⟨?_, ?_, ?_⟩
  · intro h
    subst h
    exact ⟨rfl, rfl⟩
  · intro h
    by_cases hkb : kb = ""
    · simp [getRelevantContext, hkb]
    · rcases h with ⟨e, he⟩ | ⟨e, he⟩ | he
      · simp [getRelevantContext, ragAttempt, hkb, he]
      · cases hembed : env.embed with
        | error e2 => simp [getRelevantContext, ragAttempt, hkb, hembed]
        | ok v => simp [getRelevantContext, ragAttempt, hkb, hembed, he]
      · cases hembed : env.embed with
        | error e2 => simp [getRelevantContext, ragAttempt, hkb, hembed]
        | ok v => simp [getRelevantContext, ragAttempt, hkb, hembed, he]
  · by_cases hkb : kb = ""
    · exact ⟨"", by simp [getRelevantContext, hkb]⟩
    · cases ha : ragAttempt env with
      | ok s => exact ⟨s, by simp [getRelevantContext, hkb, ha]⟩
      | error e => exact ⟨"", by simp [getRelevantContext, hkb, ha]⟩

/-- C9 (witness): with the identifier absent, empty text and zero external
calls, even though both external services would succeed; with an identifier
present and the embeddings call failing, empty text. -/
theorem C9_witness :
    (getRelevantContext "" ⟨.ok [1], .ok (some ["doc"])⟩ = .ok ""
      ∧ ragExternalCalls "" ⟨.ok [1], .ok (some ["doc"])⟩ = 0)
    ∧ getRelevantContext "kb1" ⟨.error "embed down", .ok (some ["doc"])⟩
        = .ok "" :=
  ⟨(C9_context_retrieval "" ⟨.ok [1], .ok (some ["doc"])⟩).1 rfl,
   (C9_context_retrieval "kb1" ⟨.error "embed down", .ok (some ["doc"])⟩).2.1
     (Or.inl ⟨"embed down", rfl⟩)⟩

/-- C10: every frame emitted by a generation cycle of the primary client is a
response frame; if it is a `content_complete = false` frame its content is
non-empty (a frame is only sent for a truthy delta); and an empty content
fragment can only occur on a `content_complete = true` frame of a cycle
whose provider stream completed successfully. -/
theorem C10_nonempty_deltas (c : ClientConfig) (req : RetellRequest)
    (prov : Provider) (k : Nat) (f : OutEvent)
    (hf : f ∈ DraftResponse c req prov k) :
    ∃ r s cc ec, f = OutEvent.response r s cc ec
      ∧ (cc = false → s ≠ "")
      ∧ (s = "" → cc = true ∧ prov.ok = true) := by
  unfold DraftResponse at hf
  split at hf
  · split at hf
    · obtain ⟨s, rfl, hs⟩ :=
        streamLoop_events_shape req.response_id prov.chunks k f hf
      exact ⟨_, s, false, false, rfl, fun _ => hs, fun h => absurd h hs⟩
    · split at hf
      · split at hf
        · rcases List.mem_append.1 hf with hmem | hmem
          · obtain ⟨s, rfl, hs⟩ :=
              streamLoop_events_shape req.response_id prov.chunks k f hmem
            exact ⟨_, s, false, false, rfl, fun _ => hs, fun h => absurd h hs⟩
          · simp only [List.mem_singleton] at hmem
            subst hmem
            refine ⟨_, "", true, _, rfl, by simp, fun _ => ⟨rfl, by assumption⟩⟩
        · obtain ⟨s, rfl, hs⟩ :=
            streamLoop_events_shape req.response_id prov.chunks k f hf
          exact ⟨_, s, false, false, rfl, fun _ => hs, fun h => absurd h hs⟩
      · split at hf
        · rcases List.mem_append.1 hf with hmem | hmem
          · obtain ⟨s, rfl, hs⟩ :=
              streamLoop_events_shape req.response_id prov.chunks k f hmem
            exact ⟨_, s, false, false, rfl, fun _ => hs, fun h => absurd h hs⟩
          · simp only [List.mem_singleton] at hmem
            subst hmem
            refine ⟨_, apologyText, true, false, rfl, by simp,
              fun h => absurd h (by decide)⟩
        · obtain ⟨s, rfl, hs⟩ :=
            streamLoop_events_shape req.response_id prov.chunks k f hf
          exact ⟨_, s, false, false, rfl, fun _ => hs, fun h => absurd h hs⟩
  · simp at hf

/-- C10 (witness): the "Hola" delta frame of a concrete successful cycle has
the stated shape. -/
theorem C10_witness :
    ∃ r s cc ec,
      OutEvent.response (some 1) "Hola" false false
        = OutEvent.response r s cc ec
      ∧ (cc = false → s ≠ "")
      ∧ (s = "" → cc = true ∧ true = true) :=
  C10_nonempty_deltas {}
    { interaction_type := .response_required, response_id := some 1 }
    ⟨[⟨some "Hola"⟩], true, ""⟩ 5
    (OutEvent.response (some 1) "Hola" false false) (by decide)

end Clinibot
